import Mathlib

/-!
Verification of the pysoleng solar-geometry engine (`pysol/solar_geom.py`)
against its natural-language specification.

The Python module is shallowly embedded below.  Conventions of the embedding:

* Real-valued Python floats are modelled by `ℝ` (exact real semantics; all
  trigonometry is `Real.cos` / `Real.sin` / `Real.arccos`).
* A Python exception is modelled by the `PyError` type and a raising
  function returns `Except PyError α`.  `warnings.warn` does not raise in
  Python, so a function that may warn returns its value together with a
  `Bool` recording whether the advisory warning was emitted.
* A parsed timestamp (the result of `dateutil.parser.parse`) is modelled by
  `Timestamp`: wall-clock minutes since 00:00 of January 1 of a non-leap
  year, together with the optional explicit UTC offset (seconds) carried by
  a `tzoffset`.  `timetuple().tm_yday` is then `⌊wall / 1440⌋ + 1`.
* `dateutil.parser.parse` accepts only strings; handing it an already
  constructed `datetime` raises `TypeError`.  Arguments that are sometimes
  strings and sometimes `datetime` objects in the source are modelled by
  `TimeArg`, which records the runtime type; `parse` on the `.dt` branch
  yields `PyError.typeError`, exactly as `dateutil` does.
* `dt.datetime.now().date()` (read only to decide the advisory warning) is
  modelled by an explicit `today : ℤ` parameter (ordinal date).
-/

/-- Python exceptions raised (or raisable) by the module. -/
inductive PyError where
  | valueError (msg : String)
  | typeError
  | zeroDivisionError
  | warningError (msg : String)
  deriving DecidableEq

/-- Message of the `ValueError` raised for an out-of-range integer day number. -/
def dayRangeMsg : String := "If n is an integer, it must be between 1 and 365 (inclusive)."

/-- Message of the `ValueError` raised for an out-of-range longitude. -/
def lonRangeMsg : String := "longitude must be a numeric value between 0 and 360 (inclusive)."

/-- Message of the `ValueError` raised for an out-of-range latitude. -/
def latRangeMsg : String := "latitude must be a numeric value between -90 and 90 (inclusive)."

/-- Message of the `ValueError` raised when a timestamp has no explicit UTC offset. -/
def tzMsg : String := "local_standard_time must provide a time zone offset, such as `1/1/2019 12:00 PM -06:00`."

/-- A parsed timestamp: wall-clock minutes since 00:00 Jan 1 of a non-leap
year, plus the explicit UTC offset in seconds when one was present
(`dateutil.tz.tzoffset`); `none` models any other `tzinfo`. -/
structure Timestamp where
  wall : ℝ
  tz : Option ℤ

/-- `timetuple().tm_yday` of a parsed timestamp: 1-based ordinal day of year. -/
noncomputable def dayOfYear (ts : Timestamp) : ℤ := ⌊ts.wall / 1440⌋ + 1

/-- Wall-clock minutes of 00:00 on the calendar date of `ts`. -/
noncomputable def dayStart (ts : Timestamp) : ℝ := 1440 * (⌊ts.wall / 1440⌋ : ℤ)

/-- A Python value that is either a string (already parsed into its
timestamp meaning) or a `datetime` object, as passed around at runtime. -/
inductive TimeArg where
  | str (ts : Timestamp)
  | dt (ts : Timestamp)

/-- `dateutil.parser.parse`: succeeds on (parseable) strings, raises
`TypeError` on a `datetime` object. -/
def parseTA : TimeArg → Except PyError Timestamp
  | .str ts => .ok ts
  | .dt _ => .error .typeError

/-- `Solar_Geometry.calculate_day_number_from_date`: parse the argument and
take `tm_yday`.  `TypeError` from `parse` is not caught and propagates. -/
noncomputable def calculate_day_number_from_date (d : TimeArg) : Except PyError ℤ :=
  match parseTA d with
  | .ok ts => .ok (dayOfYear ts)
  | .error e => .error e

/-- Argument of `calculate_B` as a runtime value: an `int` or a date
string / `datetime` handed on to `calculate_day_number_from_date`. -/
inductive NArg where
  | int (n : ℤ)
  | time (t : TimeArg)

/-- `math.radians`. -/
noncomputable def radians (x : ℝ) : ℝ := x * Real.pi / 180

/-- `math.degrees`. -/
noncomputable def degrees (x : ℝ) : ℝ := x * 180 / Real.pi

/-- The Spencer coefficient as a pure function of the day number (degrees). -/
noncomputable def B_of_day (n : ℤ) : ℝ := (n - 1) * 360 / 365

/-- `Solar_Geometry.calculate_B`: on an `int`, range-check `1 ≤ n ≤ 365`
(the code rejects `n <= 0` or `n >= 366`); on a non-`int`, convert through
`calculate_day_number_from_date` with no range check afterwards. -/
noncomputable def calculate_B : NArg → Except PyError ℝ
  | .int n =>
      if n ≤ 0 ∨ 366 ≤ n then .error (.valueError dayRangeMsg)
      else .ok (B_of_day n)
  | .time t =>
      match calculate_day_number_from_date t with
      | .ok d => .ok (B_of_day d)
      | .error e => .error e

/-- The irradiance multiplier exactly as the source computes it: the
degrees-valued `B` is handed to `math.cos` / `math.sin` with NO conversion
to radians (unlike the sibling functions `calculate_E` and
`calculate_declination_degrees`). -/
noncomputable def G_multiplier (B : ℝ) : ℝ :=
  1.000110 + 0.034221 * Real.cos B + 0.001280 * Real.sin B +
    0.000719 * Real.cos (2 * B) + 0.000077 * Real.sin (2 * B)

/-- `Solar_Geometry.calculate_G_on_W_m2`. -/
noncomputable def calculate_G_on_W_m2 (G_sc : ℝ) (n : NArg) : Except PyError ℝ :=
  match calculate_B n with
  | .ok B => .ok (G_sc * G_multiplier B)
  | .error e => .error e

/-- The equation of time (minutes) as a pure function of the degrees-valued
Spencer coefficient, which the source first converts to radians. -/
noncomputable def E_of_B (Bdeg : ℝ) : ℝ :=
  229.2 * (0.000075 + 0.001868 * Real.cos (radians Bdeg) -
    0.032077 * Real.sin (radians Bdeg) -
    0.014615 * Real.cos (2 * radians Bdeg) -
    0.04089 * Real.sin (2 * radians Bdeg))

/-- The equation of time of a given day number. -/
noncomputable def E_of_day (n : ℤ) : ℝ := E_of_B (B_of_day n)

/-- `Solar_Geometry.calculate_E`. -/
noncomputable def calculate_E (n : NArg) : Except PyError ℝ :=
  match calculate_B n with
  | .ok B => .ok (E_of_B B)
  | .error e => .error e

/-- The solar declination (degrees) as a pure function of the degrees-valued
Spencer coefficient (converted to radians inside, per the source). -/
noncomputable def decl_of_B (Bdeg : ℝ) : ℝ :=
  180 / Real.pi * (0.006918 - 0.399912 * Real.cos (radians Bdeg) +
    0.070257 * Real.sin (radians Bdeg) -
    0.006758 * Real.cos (2 * radians Bdeg) +
    0.000907 * Real.sin (2 * radians Bdeg) -
    0.002697 * Real.cos (3 * radians Bdeg) +
    0.00148 * Real.sin (3 * radians Bdeg))

/-- `Solar_Geometry.calculate_declination_degrees`. -/
noncomputable def calculate_declination_degrees (n : NArg) : Except PyError ℝ :=
  match calculate_B n with
  | .ok B => .ok (decl_of_B B)
  | .error e => .error e

/-- `Solar_Geometry.calculate_solar_time`.  Returns the shifted timestamp
together with the advisory-warning flag (the source warns when the parsed
date equals today's date).  Validation order follows the source: longitude
first, then the explicit-offset check, then the computation. -/
noncomputable def calculate_solar_time (ts : Timestamp) (longitude : ℝ) (today : ℤ) :
    Except PyError (Timestamp × Bool) :=
  if longitude < 0 ∨ 360 < longitude then .error (.valueError lonRangeMsg)
  else
    match ts.tz with
    | none => .error (.valueError tzMsg)
    | some off =>
      let warned : Bool := decide (⌊ts.wall / 1440⌋ = today)
      let utc_offset : ℤ := Int.fdiv off 3600
      let standard_meridian : ℝ := 15 * (|utc_offset| : ℤ)
      match calculate_E (.time (.str ts)) with
      | .ok E =>
          let longitude_correction_mins : ℝ := 4 * (standard_meridian - longitude)
          .ok (⟨ts.wall + (longitude_correction_mins + E), some off⟩, warned)
      | .error e => .error e

/-- `Solar_Geometry.calculate_hour_angle_degrees`: 15°/hour displacement of
the solar-time timestamp from 12:00 of its own calendar date. -/
noncomputable def calculate_hour_angle_degrees (solar_time : Timestamp) : ℝ :=
  ((solar_time.wall - (dayStart solar_time + 720)) * 60 / 3600) * 15

/-- `math.acos`: raises `ValueError` ("math domain error") outside `[-1, 1]`. -/
noncomputable def pyAcos (x : ℝ) : Except PyError ℝ :=
  if x < -1 ∨ 1 < x then .error (.valueError "math domain error")
  else .ok (Real.arccos x)

/-- The argument handed to `math.acos` in the zenith computation, for a
given latitude (degrees), declination (radians) and hour angle (radians). -/
noncomputable def cosZenithArg (latitude declR hourR : ℝ) : ℝ :=
  Real.cos (radians latitude) * Real.cos declR * Real.cos hourR +
    Real.sin (radians latitude) * Real.sin declR

/-- `Solar_Geometry.calculate_solar_zenith_degrees`: validate latitude, then
derive the day number and the hour angle by re-parsing `solar_time` (a
`TypeError` when a `datetime` is passed, as the aggregate driver does). -/
noncomputable def calculate_solar_zenith_degrees (solar_time : TimeArg) (latitude : ℝ) :
    Except PyError ℝ :=
  if latitude < -90 ∨ 90 < latitude then .error (.valueError latRangeMsg)
  else
    match calculate_day_number_from_date solar_time with
    | .error e => .error e
    | .ok n =>
      match calculate_declination_degrees (.int n) with
      | .error e => .error e
      | .ok decl =>
        match parseTA solar_time with
        | .error e => .error e
        | .ok pts =>
          let declR := radians decl
          let hourR := radians (calculate_hour_angle_degrees pts)
          match pyAcos (cosZenithArg latitude declR hourR) with
          | .error e => .error e
          | .ok a => .ok (degrees a)

/-- `Solar_Geometry.calculate_solar_altitude_degrees`. -/
noncomputable def calculate_solar_altitude_degrees (solar_time : TimeArg) (latitude : ℝ) :
    Except PyError ℝ :=
  match calculate_solar_zenith_degrees solar_time latitude with
  | .ok z => .ok (90 - z)
  | .error e => .error e

/-- `Solar_Geometry.calculate_solar_azimuth_degrees`, following Python's
left-to-right evaluation: `hour_angle / abs(hour_angle)` raises
`ZeroDivisionError` first; then the division inside the `acos` argument
raises `ZeroDivisionError` when `sin(zenith) * cos(latitude) = 0`; then
`math.acos` may raise `ValueError`. -/
noncomputable def calculate_solar_azimuth_degrees
    (hour_angle solar_zenith latitude declination : ℝ) : Except PyError ℝ :=
  if hour_angle = 0 then .error .zeroDivisionError
  else
    if Real.sin (radians solar_zenith) * Real.cos (radians latitude) = 0 then
      .error .zeroDivisionError
    else
      match pyAcos ((Real.cos (radians solar_zenith) * Real.sin (radians latitude) -
          Real.sin (radians declination)) /
          (Real.sin (radians solar_zenith) * Real.cos (radians latitude))) with
      | .error e => .error e
      | .ok a => .ok (hour_angle / |hour_angle| * |degrees a|)

/-- `Solar_Geometry.calculate_solar_noon_in_local_standard_time`.  The
source performs NO longitude validation here; it checks the explicit
offset, may warn, and subtracts `E + longitude_correction` minutes from
12:00 of the timestamp's calendar date. -/
noncomputable def calculate_solar_noon_in_local_standard_time
    (ts : Timestamp) (longitude : ℝ) (today : ℤ) : Except PyError (Timestamp × Bool) :=
  match ts.tz with
  | none => .error (.valueError tzMsg)
  | some off =>
    let warned : Bool := decide (⌊ts.wall / 1440⌋ = today)
    let utc_offset : ℤ := Int.fdiv off 3600
    let standard_meridian : ℝ := 15 * (|utc_offset| : ℤ)
    match calculate_E (.time (.str ts)) with
    | .ok E =>
        let longitude_correction_mins : ℝ := 4 * (standard_meridian - longitude)
        .ok (⟨dayStart ts + 720 - (E + longitude_correction_mins), some off⟩, warned)
    | .error e => .error e

/-- The attribute dictionary of a `Solar_Geometry` instance: the four
configuration attributes plus the nine derived attributes, each `none`
until `calculate_all_attributes` writes it. -/
structure SGState where
  G_sc : ℝ
  latitude : ℝ
  longitude : ℝ
  local_standard_time : Timestamp
  day_number : Option ℤ
  B : Option ℝ
  G_on : Option ℝ
  E : Option ℝ
  solar_time : Option Timestamp
  declination : Option ℝ
  hour_angle : Option ℝ
  zenith : Option ℝ
  altitude : Option ℝ

/-- `Solar_Geometry.calculate_all_attributes`: run the nine stages in
source order, assigning each result to the instance as it is produced.  A
raised exception aborts the pass; the attributes already assigned remain
on the (mutated) instance, which is returned alongside the error. -/
noncomputable def calculate_all_attributes (s : SGState) (today : ℤ) :
    SGState × Option PyError :=
  match calculate_day_number_from_date (.str s.local_standard_time) with
  | .error e => (s, some e)
  | .ok d =>
    let s1 := { s with day_number := some d }
    match calculate_B (.int d) with
    | .error e => (s1, some e)
    | .ok b =>
      let s2 := { s1 with B := some b }
      match calculate_G_on_W_m2 s.G_sc (.int d) with
      | .error e => (s2, some e)
      | .ok g =>
        let s3 := { s2 with G_on := some g }
        match calculate_E (.int d) with
        | .error e => (s3, some e)
        | .ok ev =>
          let s4 := { s3 with E := some ev }
          match calculate_solar_time s.local_standard_time s.longitude today with
          | .error e => (s4, some e)
          | .ok (st, _) =>
            let s5 := { s4 with solar_time := some st }
            match calculate_declination_degrees (.int d) with
            | .error e => (s5, some e)
            | .ok dec =>
              let s6 := { s5 with declination := some dec }
              let s7 := { s6 with hour_angle := some (calculate_hour_angle_degrees st) }
              match calculate_solar_zenith_degrees (.dt st) s.latitude with
              | .error e => (s7, some e)
              | .ok z =>
                let s8 := { s7 with zenith := some z }
                match calculate_solar_altitude_degrees (.dt st) s.latitude with
                | .error e => (s8, some e)
                | .ok alt => ({ s8 with altitude := some alt }, none)

/-- `__init__` keyword arguments: `none` marks an unsupplied field. -/
structure InitKwargs where
  G_sc : Option ℝ
  latitude : Option ℝ
  longitude : Option ℝ
  local_standard_time : Option Timestamp

/-- The default local standard time string
`'May 1, 2019 12:00 PM -08:00'` once parsed: day 121 of a non-leap year at
12:00 wall clock, offset −8 h (−28800 s). -/
def defaultLST : Timestamp := ⟨120 * 1440 + 720, some (-28800)⟩

/-- `Solar_Geometry.__init__`: merge the defaults with the supplied keyword
arguments, then iterate over the keys left to their defaults and `raise
Warning(...)` on the first one (set iteration order is unspecified, but an
exception is raised exactly when at least one field was unsupplied). -/
noncomputable def Solar_Geometry_init (kw : InitKwargs) : Except PyError SGState :=
  let cfg : SGState :=
    { G_sc := kw.G_sc.getD 1367
      latitude := kw.latitude.getD 40.8665
      longitude := kw.longitude.getD 124.0828
      local_standard_time := kw.local_standard_time.getD defaultLST
      day_number := none, B := none, G_on := none, E := none, solar_time := none
      declination := none, hour_angle := none, zenith := none, altitude := none }
  if kw.G_sc.isNone ∨ kw.latitude.isNone ∨ kw.longitude.isNone ∨
      kw.local_standard_time.isNone then
    .error (.warningError "set to default value")
  else
    .ok cfg

lemma calculate_E_str (ts : Timestamp) :
    calculate_E (.time (.str ts)) = .ok (E_of_day (dayOfYear ts)) := rfl

lemma calculate_B_int_ok {n : ℤ} (h1 : 1 ≤ n) (h2 : n ≤ 365) :
    calculate_B (.int n) = .ok (B_of_day n) := by
  simp only [calculate_B]
  rw [if_neg]
  push_neg
  exact ⟨by omega, by omega⟩

lemma calculate_G_on_int_ok (G_sc : ℝ) {n : ℤ} (h1 : 1 ≤ n) (h2 : n ≤ 365) :
    calculate_G_on_W_m2 G_sc (.int n) = .ok (G_sc * G_multiplier (B_of_day n)) := by
  unfold calculate_G_on_W_m2
  rw [calculate_B_int_ok h1 h2]

lemma calculate_E_int_ok {n : ℤ} (h1 : 1 ≤ n) (h2 : n ≤ 365) :
    calculate_E (.int n) = .ok (E_of_B (B_of_day n)) := by
  unfold calculate_E
  rw [calculate_B_int_ok h1 h2]

lemma calculate_declination_int_ok {n : ℤ} (h1 : 1 ≤ n) (h2 : n ≤ 365) :
    calculate_declination_degrees (.int n) = .ok (decl_of_B (B_of_day n)) := by
  unfold calculate_declination_degrees
  rw [calculate_B_int_ok h1 h2]

lemma calculate_solar_time_ok (ts : Timestamp) (off : ℤ) (longitude : ℝ) (today : ℤ)
    (htz : ts.tz = some off) (h1 : 0 ≤ longitude) (h2 : longitude ≤ 360) :
    calculate_solar_time ts longitude today =
      .ok (⟨ts.wall + (4 * (15 * ((|Int.fdiv off 3600| : ℤ) : ℝ) - longitude) +
              E_of_day (dayOfYear ts)), some off⟩,
           decide (⌊ts.wall / 1440⌋ = today)) := by
  unfold calculate_solar_time
  rw [if_neg (by push_neg; exact ⟨h1, h2⟩), htz, calculate_E_str]

lemma zenith_dt_typeError {latitude : ℝ}
    (h1 : -90 ≤ latitude) (h2 : latitude ≤ 90) (st : Timestamp) :
    calculate_solar_zenith_degrees (.dt st) latitude = .error .typeError := by
  unfold calculate_solar_zenith_degrees
  rw [if_neg (by push_neg; exact ⟨by linarith, by linarith⟩)]
  rfl

lemma calculate_all_attributes_run (s : SGState) (today off : ℤ)
    (htz : s.local_standard_time.tz = some off)
    (hd1 : 1 ≤ dayOfYear s.local_standard_time)
    (hd2 : dayOfYear s.local_standard_time ≤ 365)
    (hlo1 : 0 ≤ s.longitude) (hlo2 : s.longitude ≤ 360)
    (hla1 : -90 ≤ s.latitude) (hla2 : s.latitude ≤ 90) :
    ∃ st : Timestamp,
      calculate_all_attributes s today =
        ({ s with
            day_number := some (dayOfYear s.local_standard_time),
            B := some (B_of_day (dayOfYear s.local_standard_time)),
            G_on := some (s.G_sc * G_multiplier (B_of_day (dayOfYear s.local_standard_time))),
            E := some (E_of_B (B_of_day (dayOfYear s.local_standard_time))),
            solar_time := some st,
            declination := some (decl_of_B (B_of_day (dayOfYear s.local_standard_time))),
            hour_angle := some (calculate_hour_angle_degrees st) },
         some PyError.typeError) := by
  refine ⟨⟨s.local_standard_time.wall +
      (4 * (15 * ((|Int.fdiv off 3600| : ℤ) : ℝ) - s.longitude) +
        E_of_day (dayOfYear s.local_standard_time)), some off⟩, ?_⟩
  unfold calculate_all_attributes
  simp only [show calculate_day_number_from_date (.str s.local_standard_time) =
        .ok (dayOfYear s.local_standard_time) from rfl,
      calculate_B_int_ok hd1 hd2, calculate_G_on_int_ok s.G_sc hd1 hd2,
      calculate_E_int_ok hd1 hd2,
      calculate_solar_time_ok s.local_standard_time off s.longitude today htz hlo1 hlo2,
      calculate_declination_int_ok hd1 hd2,
      zenith_dt_typeError hla1 hla2]

lemma sin_lb (b lo hi : ℝ) (hb1 : lo < b) (hb2 : b < hi) (hlo : 0 < lo) (hhi : hi ≤ 1) :
    lo - hi ^ 3 / 4 < Real.sin b := by
  have h := Real.sin_gt_sub_cube (by linarith : 0 < b) (by linarith : b ≤ 1)
  have hcube : b ^ 3 < hi ^ 3 := pow_lt_pow_left₀ hb2 (by linarith) (by norm_num)
  linarith

lemma E_of_B_small (B : ℝ) (hb1 : 0.0172142 < radians B) (hb2 : radians B < 0.0172143) :
    E_of_B B < -3.2 := by
  have hs1 : 0.0172129 < Real.sin (radians B) := by
    have := sin_lb (radians B) 0.0172142 0.0172143 hb1 hb2 (by norm_num) (by norm_num)
    nlinarith
  have hc1 : Real.cos (radians B) ≤ 1 := Real.cos_le_one _
  have hs2 : 0.0344181 < Real.sin (2 * radians B) := by
    have := sin_lb (2 * radians B) 0.0344284 0.0344286 (by linarith) (by linarith)
      (by norm_num) (by norm_num)
    nlinarith
  have hc2 : 1 - (2 * radians B) ^ 2 / 2 ≤ Real.cos (2 * radians B) :=
    Real.one_sub_sq_div_two_le_cos
  have hc2' : 0.99940 < Real.cos (2 * radians B) := by nlinarith
  unfold E_of_B
  nlinarith [hs1, hc1, hs2, hc2']

lemma E_day2_lt : E_of_day 2 < -3.2 := by
  have hpi1 := Real.pi_gt_d6
  have hpi2 := Real.pi_lt_d6
  have hr : radians (B_of_day 2) = Real.pi * (2 / 365) := by
    unfold radians B_of_day
    push_cast
    ring
  have h1 : 0.0172142 < radians (B_of_day 2) := by rw [hr]; nlinarith
  have h2 : radians (B_of_day 2) < 0.0172143 := by rw [hr]; nlinarith
  exact E_of_B_small _ h1 h2

lemma E_day1 : E_of_day 1 = -2.9044224 := by
  have h0 : radians (B_of_day 1) = 0 := by
    unfold radians B_of_day
    norm_num
  unfold E_of_day E_of_B
  rw [h0]
  norm_num [Real.cos_zero, Real.sin_zero]

lemma G_mult_near_16pi (y : ℝ) (hy1 : 0.0358 < y) (hy2 : y < 0.0359) :
    1.035026 < G_multiplier (y + 16 * Real.pi) := by
  have c1 : Real.cos (y + 16 * Real.pi) = Real.cos y := by
    rw [show y + 16 * Real.pi = y + (8 : ℤ) * (2 * Real.pi) by push_cast; ring]
    exact Real.cos_add_int_mul_two_pi y 8
  have s1 : Real.sin (y + 16 * Real.pi) = Real.sin y := by
    rw [show y + 16 * Real.pi = y + (8 : ℤ) * (2 * Real.pi) by push_cast; ring]
    exact Real.sin_add_int_mul_two_pi y 8
  have c2 : Real.cos (2 * (y + 16 * Real.pi)) = Real.cos (2 * y) := by
    rw [show 2 * (y + 16 * Real.pi) = 2 * y + (16 : ℤ) * (2 * Real.pi) by push_cast; ring]
    exact Real.cos_add_int_mul_two_pi (2 * y) 16
  have s2 : Real.sin (2 * (y + 16 * Real.pi)) = Real.sin (2 * y) := by
    rw [show 2 * (y + 16 * Real.pi) = 2 * y + (16 : ℤ) * (2 * Real.pi) by push_cast; ring]
    exact Real.sin_add_int_mul_two_pi (2 * y) 16
  have hpi1 := Real.pi_gt_d6
  unfold G_multiplier
  rw [c1, s1, c2, s2]
  have hcy : 1 - y ^ 2 / 2 ≤ Real.cos y := Real.one_sub_sq_div_two_le_cos
  have hcy' : 0.999355 < Real.cos y := by nlinarith
  have hsy : 0 ≤ Real.sin y :=
    Real.sin_nonneg_of_nonneg_of_le_pi (by linarith) (by linarith)
  have hc2y : 1 - (2 * y) ^ 2 / 2 ≤ Real.cos (2 * y) :=
    Real.one_sub_sq_div_two_le_cos
  have hc2y' : 0.99742 < Real.cos (2 * y) := by nlinarith
  have hs2y : 0 ≤ Real.sin (2 * y) :=
    Real.sin_nonneg_of_nonneg_of_le_pi (by linarith) (by linarith)
  linarith

lemma G52_gt : (1413 : ℝ) < 1367 * G_multiplier (B_of_day 52) := by
  have hpi1 := Real.pi_gt_d6
  have hpi2 := Real.pi_lt_d6
  have hB : B_of_day 52 = (18360 / 365 - 16 * Real.pi) + 16 * Real.pi := by
    unfold B_of_day
    push_cast
    ring
  rw [hB]
  have h := G_mult_near_16pi (18360 / 365 - 16 * Real.pi) (by nlinarith) (by nlinarith)
  linarith

lemma cosZenithArg_le_one (lat declR hourR : ℝ) : cosZenithArg lat declR hourR ≤ 1 := by
  unfold cosZenithArg
  have hc1 : -1 ≤ Real.cos hourR := Real.neg_one_le_cos hourR
  have hc2 : Real.cos hourR ≤ 1 := Real.cos_le_one hourR
  have hsub : Real.cos (radians lat - declR) ≤ 1 := Real.cos_le_one _
  have hadd : -1 ≤ Real.cos (radians lat + declR) := Real.neg_one_le_cos _
  rw [Real.cos_sub] at hsub
  rw [Real.cos_add] at hadd
  nlinarith [mul_nonneg (by linarith : (0:ℝ) ≤ 1 - Real.cos hourR)
      (by nlinarith : (0:ℝ) ≤ 1 + Real.cos (radians lat) * Real.cos declR -
        Real.sin (radians lat) * Real.sin declR),
    mul_nonneg (by linarith : (0:ℝ) ≤ 1 + Real.cos hourR)
      (by nlinarith : (0:ℝ) ≤ 1 - Real.cos (radians lat) * Real.cos declR -
        Real.sin (radians lat) * Real.sin declR)]

lemma neg_one_le_cosZenithArg (lat declR hourR : ℝ) : -1 ≤ cosZenithArg lat declR hourR := by
  unfold cosZenithArg
  have hc1 : -1 ≤ Real.cos hourR := Real.neg_one_le_cos hourR
  have hc2 : Real.cos hourR ≤ 1 := Real.cos_le_one hourR
  have hsub : -1 ≤ Real.cos (radians lat - declR) := Real.neg_one_le_cos _
  have hadd : Real.cos (radians lat + declR) ≤ 1 := Real.cos_le_one _
  rw [Real.cos_sub] at hsub
  rw [Real.cos_add] at hadd
  nlinarith [mul_nonneg (by linarith : (0:ℝ) ≤ 1 - Real.cos hourR)
      (by nlinarith : (0:ℝ) ≤ 1 - Real.cos (radians lat) * Real.cos declR +
        Real.sin (radians lat) * Real.sin declR),
    mul_nonneg (by linarith : (0:ℝ) ≤ 1 + Real.cos hourR)
      (by nlinarith : (0:ℝ) ≤ 1 + Real.cos (radians lat) * Real.cos declR +
        Real.sin (radians lat) * Real.sin declR)]

lemma floor_div_1440_eq (w : ℝ) (k : ℤ) (h1 : 1440 * (k : ℝ) ≤ w)
    (h2 : w < 1440 * ((k : ℝ) + 1)) : (⌊w / 1440⌋ : ℤ) = k := by
  rw [Int.floor_eq_iff]
  constructor
  · rw [le_div_iff₀ (by norm_num : (0:ℝ) < 1440)]
    linarith
  · rw [div_lt_iff₀ (by norm_num : (0:ℝ) < 1440)]
    linarith

lemma dayOfYear_noonJan1 : dayOfYear ⟨720, some (-28800)⟩ = 1 := by
  unfold dayOfYear
  rw [show (Timestamp.mk 720 (some (-28800))).wall = (720:ℝ) from rfl,
    floor_div_1440_eq 720 0 (by norm_num) (by norm_num)]
  norm_num

lemma dayStart_noonJan1 : dayStart ⟨720, some (-28800)⟩ = 0 := by
  unfold dayStart
  rw [show (Timestamp.mk 720 (some (-28800))).wall = (720:ℝ) from rfl,
    floor_div_1440_eq 720 0 (by norm_num) (by norm_num)]
  norm_num

lemma dayOfYear_default : dayOfYear defaultLST = 121 := by
  unfold dayOfYear defaultLST
  rw [show (Timestamp.mk (120 * 1440 + 720) (some (-28800))).wall =
      (120 * 1440 + 720 : ℝ) from rfl,
    floor_div_1440_eq (120 * 1440 + 720) 120 (by norm_num) (by norm_num)]
  norm_num

lemma calculate_solar_noon_ok (ts : Timestamp) (off : ℤ) (longitude : ℝ) (today : ℤ)
    (htz : ts.tz = some off) :
    calculate_solar_noon_in_local_standard_time ts longitude today =
      .ok (⟨dayStart ts + 720 - (E_of_day (dayOfYear ts) +
              4 * (15 * ((|Int.fdiv off 3600| : ℤ) : ℝ) - longitude)), some off⟩,
           decide (⌊ts.wall / 1440⌋ = today)) := by
  unfold calculate_solar_noon_in_local_standard_time
  rw [htz, calculate_E_str]

lemma zenith_str_total (ts : Timestamp) (lat : ℝ) (h1 : -90 ≤ lat) (h2 : lat ≤ 90)
    (hd1 : 1 ≤ dayOfYear ts) (hd2 : dayOfYear ts ≤ 365) :
    calculate_solar_zenith_degrees (.str ts) lat =
      .ok (degrees (Real.arccos (cosZenithArg lat
        (radians (decl_of_B (B_of_day (dayOfYear ts))))
        (radians (calculate_hour_angle_degrees ts))))) := by
  unfold calculate_solar_zenith_degrees
  rw [if_neg (by push_neg; exact ⟨by linarith, by linarith⟩)]
  simp only [show calculate_day_number_from_date (.str ts) = .ok (dayOfYear ts) from rfl,
    calculate_declination_int_ok hd1 hd2,
    show parseTA (.str ts) = .ok ts from rfl]
  unfold pyAcos
  rw [if_neg]
  push_neg
  exact ⟨neg_one_le_cosZenithArg _ _ _, cosZenithArg_le_one _ _ _⟩

lemma degrees_arccos_mem (x : ℝ) : 0 ≤ degrees (Real.arccos x) ∧ degrees (Real.arccos x) ≤ 180 := by
  have hpi := Real.pi_pos
  have ha1 := Real.arccos_nonneg x
  have ha2 := Real.arccos_le_pi x
  unfold degrees
  constructor
  · positivity
  · rw [div_le_iff₀ hpi]
    nlinarith

lemma abs_fdiv_m28800 : (|Int.fdiv (-28800) 3600| : ℤ) = 8 := by decide

/-- C10: for all integer day numbers n in [1, 365], `calculate_B` succeeds
with `(n - 1) * 360 / 365` degrees; B is strictly monotone in n, with
B(1) = 0 and B(365) = 360 * 364 / 365. -/
theorem claim_C10 :
    (∀ n : ℤ, 1 ≤ n → n ≤ 365 →
      calculate_B (.int n) = .ok (((n : ℝ) - 1) * 360 / 365)) ∧
    (∀ m n : ℤ, 1 ≤ m → m < n → n ≤ 365 →
      ∃ bm bn, calculate_B (.int m) = .ok bm ∧ calculate_B (.int n) = .ok bn ∧ bm < bn) ∧
    calculate_B (.int 1) = .ok 0 ∧
    calculate_B (.int 365) = .ok (360 * 364 / 365) := by
  refine ⟨fun n h1 h2 => calculate_B_int_ok h1 h2, fun m n h1 h2 h3 => ?_, ?_, ?_⟩
  · refine ⟨B_of_day m, B_of_day n,
      calculate_B_int_ok h1 (by omega), calculate_B_int_ok (by omega) h3, ?_⟩
    unfold B_of_day
    have : (m : ℝ) < (n : ℝ) := by exact_mod_cast h2
    linarith
  · rw [calculate_B_int_ok (by norm_num) (by norm_num)]
    norm_num [B_of_day]
  · rw [calculate_B_int_ok (by norm_num) (by norm_num)]
    norm_num [B_of_day]

/-- Witness for C10 at concrete day numbers. -/
theorem claim_C10_witness :
    calculate_B (.int 100) = .ok ((((100 : ℤ) : ℝ) - 1) * 360 / 365) ∧
    ∃ bm bn, calculate_B (.int 2) = .ok bm ∧ calculate_B (.int 3) = .ok bn ∧ bm < bn :=
  ⟨claim_C10.1 100 (by norm_num) (by norm_num),
   claim_C10.2.1 2 3 (by norm_num) (by norm_num) (by norm_num)⟩

/-- C8: out-of-range day numbers, longitudes and latitudes are rejected
with the corresponding range `ValueError` regardless of the other inputs,
and the boundary values (1, 365; 0, 360; -90, 90) are accepted. -/
theorem claim_C8 :
    (∀ n : ℤ, (n < 1 ∨ 365 < n) →
      calculate_B (.int n) = .error (.valueError dayRangeMsg)) ∧
    (∃ r, calculate_B (.int 1) = .ok r) ∧ (∃ r, calculate_B (.int 365) = .ok r) ∧
    (∀ ts longitude today, (longitude < 0 ∨ 360 < longitude) →
      calculate_solar_time ts longitude today = .error (.valueError lonRangeMsg)) ∧
    (∀ ts off today, ts.tz = some off →
      (∃ r, calculate_solar_time ts 0 today = .ok r) ∧
      (∃ r, calculate_solar_time ts 360 today = .ok r)) ∧
    (∀ st lat, (lat < -90 ∨ 90 < lat) →
      calculate_solar_zenith_degrees st lat = .error (.valueError latRangeMsg)) ∧
    (∀ ts, 1 ≤ dayOfYear ts → dayOfYear ts ≤ 365 →
      (∃ r, calculate_solar_zenith_degrees (.str ts) (-90) = .ok r) ∧
      (∃ r, calculate_solar_zenith_degrees (.str ts) 90 = .ok r)) := by
  refine ⟨?_, ?_, ?_, ?_, ?_, ?_, ?_⟩
  · intro n h
    simp only [calculate_B]
    rw [if_pos (by omega)]
  · exact ⟨_, calculate_B_int_ok (by norm_num) (by norm_num)⟩
  · exact ⟨_, calculate_B_int_ok (by norm_num) (by norm_num)⟩
  · intro ts longitude today h
    unfold calculate_solar_time
    rw [if_pos h]
  · intro ts off today htz
    exact ⟨⟨_, calculate_solar_time_ok ts off 0 today htz (by norm_num) (by norm_num)⟩,
      ⟨_, calculate_solar_time_ok ts off 360 today htz (by norm_num) (by norm_num)⟩⟩
  · intro st lat h
    unfold calculate_solar_zenith_degrees
    rw [if_pos h]
  · intro ts hd1 hd2
    exact ⟨⟨_, zenith_str_total ts (-90) (by norm_num) (by norm_num) hd1 hd2⟩,
      ⟨_, zenith_str_total ts 90 (by norm_num) (by norm_num) hd1 hd2⟩⟩

/-- Witness for C8: rejection at day 366, longitude 400, latitude 91;
acceptance at longitude 0 and latitude 90 for noon of January 1. -/
theorem claim_C8_witness :
    calculate_B (.int 366) = .error (.valueError dayRangeMsg) ∧
    calculate_solar_time ⟨720, some (-28800)⟩ 400 (-5) = .error (.valueError lonRangeMsg) ∧
    calculate_solar_zenith_degrees (.str ⟨720, some (-28800)⟩) 91 =
      .error (.valueError latRangeMsg) ∧
    (∃ r, calculate_solar_time ⟨720, some (-28800)⟩ 0 (-5) = .ok r) ∧
    (∃ r, calculate_solar_zenith_degrees (.str ⟨720, some (-28800)⟩) 90 = .ok r) :=
  ⟨claim_C8.1 366 (by norm_num),
   claim_C8.2.2.2.1 ⟨720, some (-28800)⟩ 400 (-5) (by norm_num),
   claim_C8.2.2.2.2.2.1 (.str ⟨720, some (-28800)⟩) 91 (by norm_num),
   (claim_C8.2.2.2.2.1 ⟨720, some (-28800)⟩ (-28800) (-5) rfl).1,
   (claim_C8.2.2.2.2.2.2 ⟨720, some (-28800)⟩ (by rw [dayOfYear_noonJan1])
      (by rw [dayOfYear_noonJan1]; omega)).2⟩

/-- C6: for every solar-time timestamp whose day of year is valid and every
latitude in [-90, 90], the zenith computation is total: the `acos` argument
stays within [-1, 1] (so Python's `math.acos` raises no domain error) and
the returned zenith angle lies in [0, 180] degrees. -/
theorem claim_C6 (ts : Timestamp) (lat : ℝ) (h1 : -90 ≤ lat) (h2 : lat ≤ 90)
    (hd1 : 1 ≤ dayOfYear ts) (hd2 : dayOfYear ts ≤ 365) :
    (-1 ≤ cosZenithArg lat (radians (decl_of_B (B_of_day (dayOfYear ts))))
        (radians (calculate_hour_angle_degrees ts)) ∧
      cosZenithArg lat (radians (decl_of_B (B_of_day (dayOfYear ts))))
        (radians (calculate_hour_angle_degrees ts)) ≤ 1) ∧
    ∃ z, calculate_solar_zenith_degrees (.str ts) lat = .ok z ∧ 0 ≤ z ∧ z ≤ 180 := by
  refine ⟨⟨neg_one_le_cosZenithArg _ _ _, cosZenithArg_le_one _ _ _⟩,
    _, zenith_str_total ts lat h1 h2 hd1 hd2, ?_, ?_⟩
  · exact (degrees_arccos_mem _).1
  · exact (degrees_arccos_mem _).2

/-- Witness for C6 at noon of January 1, latitude 40.8665. -/
theorem claim_C6_witness :
    ∃ z, calculate_solar_zenith_degrees (.str ⟨720, some (-28800)⟩) 40.8665 = .ok z ∧
      0 ≤ z ∧ z ≤ 180 :=
  (claim_C6 ⟨720, some (-28800)⟩ 40.8665 (by norm_num) (by norm_num)
    (by rw [dayOfYear_noonJan1]) (by rw [dayOfYear_noonJan1]; omega)).2

/-- C1: for every parsed timestamp carrying an explicit UTC offset and
every longitude in [0, 360], `calculate_solar_time` returns the timestamp
shifted by `4 * (15 * |offset floor-divided to whole hours| - longitude) +
E(day of year)` minutes. -/
theorem claim_C1 (ts : Timestamp) (off : ℤ) (longitude : ℝ) (today : ℤ)
    (htz : ts.tz = some off) (h1 : 0 ≤ longitude) (h2 : longitude ≤ 360) :
    ∃ warned : Bool,
      calculate_solar_time ts longitude today =
        .ok (⟨ts.wall + (4 * (15 * ((|Int.fdiv off 3600| : ℤ) : ℝ) - longitude) +
                E_of_day (dayOfYear ts)), some off⟩, warned) :=
  ⟨_, calculate_solar_time_ok ts off longitude today htz h1 h2⟩

/-- Witness for C1: noon of January 1 at offset -08:00 (floor-divided to
-8 h, standard meridian 120°) and longitude 120. -/
theorem claim_C1_witness :
    ∃ warned : Bool,
      calculate_solar_time ⟨720, some (-28800)⟩ 120 (-5) =
        .ok (⟨720 + (4 * (15 * 8 - 120) + E_of_day 1), some (-28800)⟩, warned) := by
  obtain ⟨w, hw⟩ :=
    claim_C1 ⟨720, some (-28800)⟩ (-28800) 120 (-5) rfl (by norm_num) (by norm_num)
  refine ⟨w, ?_⟩
  rw [hw, dayOfYear_noonJan1, abs_fdiv_m28800]
  norm_num

/-- C4 (code bug): at day number 52 the code returns an extraterrestrial
irradiance above 1413 W/m² for `G_sc = 1367`, outside the claimed
physically plausible band, because `calculate_G_on_W_m2` hands the
degrees-valued B (≈ 50.30) to radian trigonometric functions without
conversion. -/
theorem claim_C4 :
    ∃ g, calculate_G_on_W_m2 1367 (.int 52) = .ok g ∧ 1413 < g :=
  ⟨1367 * G_multiplier (B_of_day 52),
   calculate_G_on_int_ok 1367 (by norm_num) (by norm_num), G52_gt⟩

/-- C5 (code bug): constructing the engine with every field left to its
default raises a `Warning` exception instead of succeeding, while
supplying all four fields succeeds with exactly those values. -/
theorem claim_C5 :
    Solar_Geometry_init ⟨none, none, none, none⟩ =
      .error (.warningError "set to default value") ∧
    ∀ a b c d, Solar_Geometry_init ⟨some a, some b, some c, some d⟩ =
      .ok { G_sc := a, latitude := b, longitude := c, local_standard_time := d,
            day_number := none, B := none, G_on := none, E := none, solar_time := none,
            declination := none, hour_angle := none, zenith := none, altitude := none } := by
  exact ⟨rfl, fun a b c d => rfl⟩

/-- C7 (counterexample): at exact solar noon (hour angle 0) the azimuth
computation raises an unhandled `ZeroDivisionError` from
`hour_angle / abs(hour_angle)` — not a `DomainError`, and not any
documented deterministic convention value. -/
theorem claim_C7_counterexample :
    calculate_solar_azimuth_degrees 0 45 40.8665 10 = .error .zeroDivisionError := by
  unfold calculate_solar_azimuth_degrees
  rw [if_pos rfl]

/-- C7 (amended): the azimuth computation fails with `ZeroDivisionError`
exactly when the hour angle is zero or `sin(zenith) * cos(latitude)` is
zero; in those cases it raises instead of returning a value, so `NaN`/`Inf`
are never propagated silently, but no `DomainError` type and no exact-noon
convention exist. -/
theorem claim_C7 (hour_angle solar_zenith latitude declination : ℝ) :
    calculate_solar_azimuth_degrees hour_angle solar_zenith latitude declination =
        .error .zeroDivisionError ↔
      hour_angle = 0 ∨
        Real.sin (radians solar_zenith) * Real.cos (radians latitude) = 0 := by
  unfold calculate_solar_azimuth_degrees pyAcos
  by_cases hh : hour_angle = 0
  · simp [hh]
  · rw [if_neg hh]
    by_cases hd : Real.sin (radians solar_zenith) * Real.cos (radians latitude) = 0
    · simp [hd, hh]
    · rw [if_neg hd]
      split_ifs with ha
      · simp [hh, hd]
      · simp [hh, hd]

/-- Engine state for noon of January 1 at offset -08:00 with the Arcata
numeric defaults and no derived attribute set. -/
def cfg0 : SGState where
  G_sc := 1367
  latitude := 40.8665
  longitude := 124.0828
  local_standard_time := ⟨720, some (-28800)⟩
  day_number := none
  B := none
  G_on := none
  E := none
  solar_time := none
  declination := none
  hour_angle := none
  zenith := none
  altitude := none

/-- The default engine configuration (`'May 1, 2019 12:00 PM -08:00'`,
Arcata coordinates) with no derived attribute set. -/
def cfgDefault : SGState where
  G_sc := 1367
  latitude := 40.8665
  longitude := 124.0828
  local_standard_time := defaultLST
  day_number := none
  B := none
  G_on := none
  E := none
  solar_time := none
  declination := none
  hour_angle := none
  zenith := none
  altitude := none

/-- C9 (counterexample): `calculate_all_attributes` mutates the engine
instance — after a run on a fresh valid configuration, the instance state
differs from the initial state (the derived attributes were written onto
it), refuting "no operation mutates the engine instance". -/
theorem claim_C9_counterexample : (calculate_all_attributes cfg0 (-5)).1 ≠ cfg0 := by
  have hd : dayOfYear cfg0.local_standard_time = 1 := dayOfYear_noonJan1
  obtain ⟨st, hrun⟩ := calculate_all_attributes_run cfg0 (-5) (-28800) rfl
    (by rw [hd]) (by rw [hd]; omega)
    (by norm_num [cfg0]) (by norm_num [cfg0]) (by norm_num [cfg0]) (by norm_num [cfg0])
  intro hEq
  rw [hrun] at hEq
  have := congrArg SGState.day_number hEq
  simp [cfg0] at this

/-- C9 (amended): the value returned by the solar-time converter and by the
solar-noon inverse transform is a deterministic function of the timestamp
and longitude alone — the wall-clock date (read by the source only to
decide the advisory warning) never influences the returned timestamp. -/
theorem claim_C9 :
    (∀ ts longitude t1 t2,
      Except.map Prod.fst (calculate_solar_time ts longitude t1) =
        Except.map Prod.fst (calculate_solar_time ts longitude t2)) ∧
    (∀ ts longitude t1 t2,
      Except.map Prod.fst (calculate_solar_noon_in_local_standard_time ts longitude t1) =
        Except.map Prod.fst (calculate_solar_noon_in_local_standard_time ts longitude t2)) := by
  constructor
  · intro ts longitude t1 t2
    obtain ⟨w, tz⟩ := ts
    unfold calculate_solar_time
    by_cases hlon : longitude < 0 ∨ 360 < longitude
    · rw [if_pos hlon, if_pos hlon]
    · rw [if_neg hlon, if_neg hlon]
      cases tz with
      | none => rfl
      | some off =>
        rw [calculate_E_str]
        rfl
  · intro ts longitude t1 t2
    obtain ⟨w, tz⟩ := ts
    unfold calculate_solar_noon_in_local_standard_time
    cases tz with
    | none => rfl
    | some off =>
      rw [calculate_E_str]
      rfl

/-- C3 (code bug): on the default configuration the aggregate driver fails
unconditionally at the zenith stage with `TypeError` (it hands the
`datetime`-valued solar time to the string parser), so `zenith` and
`altitude` are never written, while the seven attributes computed before
the failure remain written on the mutated instance. -/
theorem claim_C3 :
    (calculate_all_attributes cfgDefault (-5)).2 = some PyError.typeError ∧
    (calculate_all_attributes cfgDefault (-5)).1.day_number = some 121 ∧
    ((calculate_all_attributes cfgDefault (-5)).1.B.isSome = true ∧
      (calculate_all_attributes cfgDefault (-5)).1.G_on.isSome = true ∧
      (calculate_all_attributes cfgDefault (-5)).1.E.isSome = true ∧
      (calculate_all_attributes cfgDefault (-5)).1.solar_time.isSome = true ∧
      (calculate_all_attributes cfgDefault (-5)).1.declination.isSome = true ∧
      (calculate_all_attributes cfgDefault (-5)).1.hour_angle.isSome = true) ∧
    (calculate_all_attributes cfgDefault (-5)).1.zenith = none ∧
    (calculate_all_attributes cfgDefault (-5)).1.altitude = none := by
  have hd : dayOfYear cfgDefault.local_standard_time = 121 := dayOfYear_default
  obtain ⟨st, hrun⟩ := calculate_all_attributes_run cfgDefault (-5) (-28800) rfl
    (by rw [hd]; omega) (by rw [hd]; omega)
    (by norm_num [cfgDefault]) (by norm_num [cfgDefault])
    (by norm_num [cfgDefault]) (by norm_num [cfgDefault])
  rw [hrun]
  refine ⟨rfl, ?_, ⟨rfl, rfl, rfl, rfl, rfl, rfl⟩, rfl, rfl⟩
  rw [hd]

lemma dayOfYear_ts1 : dayOfYear ⟨1682.9044224, some (-28800)⟩ = 2 := by
  unfold dayOfYear
  rw [show (Timestamp.mk 1682.9044224 (some (-28800))).wall = (1682.9044224:ℝ) from rfl,
    floor_div_1440_eq 1682.9044224 1 (by norm_num) (by norm_num)]
  norm_num

/-- C2 (counterexample): for January 1 noon at offset -08:00 and the valid
longitude 360, the solar-noon inverse lands on January 2, so the forward
transform evaluates the equation of time on day 2 instead of day 1 and the
round trip misses local noon (720 minutes) by more than a quarter of a
minute. -/
theorem claim_C2_counterexample :
    ∃ noonTs w1 res w2,
      calculate_solar_noon_in_local_standard_time ⟨720, some (-28800)⟩ 360 (-5) =
        .ok (noonTs, w1) ∧
      calculate_solar_time noonTs 360 (-5) = .ok (res, w2) ∧
      res.wall < 720 - 1 / 4 := by
  have h1 := calculate_solar_noon_ok ⟨720, some (-28800)⟩ (-28800) 360 (-5) rfl
  have hwall : dayStart ⟨720, some (-28800)⟩ + 720 -
      (E_of_day (dayOfYear ⟨720, some (-28800)⟩) +
        4 * (15 * ((|Int.fdiv (-28800) 3600| : ℤ) : ℝ) - 360)) = 1682.9044224 := by
    rw [dayStart_noonJan1, dayOfYear_noonJan1, abs_fdiv_m28800, E_day1]
    norm_num
  rw [hwall] at h1
  have h2 := calculate_solar_time_ok ⟨1682.9044224, some (-28800)⟩ (-28800) 360 (-5) rfl
    (by norm_num) (by norm_num)
  refine ⟨_, _, _, _, h1, h2, ?_⟩
  dsimp only
  rw [abs_fdiv_m28800, dayOfYear_ts1]
  have := E_day2_lt
  push_cast
  linarith

/-- C2 (amended): whenever the minute shift `E + 4 * (standard_meridian -
longitude)` lies in (-720, 720] — so the computed solar noon stays on the
timestamp's own calendar date — the forward transform applied to the
inverse solar-noon transform recovers local noon (12:00 of that date at
the same offset) exactly. -/
theorem claim_C2 (ts : Timestamp) (off : ℤ) (longitude : ℝ) (today : ℤ)
    (htz : ts.tz = some off) (h1 : 0 ≤ longitude) (h2 : longitude ≤ 360)
    (hs1 : -720 < E_of_day (dayOfYear ts) +
      4 * (15 * ((|Int.fdiv off 3600| : ℤ) : ℝ) - longitude))
    (hs2 : E_of_day (dayOfYear ts) +
      4 * (15 * ((|Int.fdiv off 3600| : ℤ) : ℝ) - longitude) ≤ 720) :
    ∃ noonTs w1 w2,
      calculate_solar_noon_in_local_standard_time ts longitude today = .ok (noonTs, w1) ∧
      calculate_solar_time noonTs longitude today =
        .ok (⟨dayStart ts + 720, some off⟩, w2) := by
  have hinv := calculate_solar_noon_ok ts off longitude today htz
  have hdayGen : ∀ x : ℝ, -720 < x → x ≤ 720 →
      dayOfYear (⟨dayStart ts + 720 - x, some off⟩ : Timestamp) = dayOfYear ts := by
    intro x hx1 hx2
    unfold dayOfYear dayStart
    congr 1
    dsimp only
    exact floor_div_1440_eq _ _ (by linarith) (by linarith)
  have hday := hdayGen (E_of_day (dayOfYear ts) +
    4 * (15 * ((|Int.fdiv off 3600| : ℤ) : ℝ) - longitude)) hs1 hs2
  have hfwd := calculate_solar_time_ok
    ⟨dayStart ts + 720 - (E_of_day (dayOfYear ts) +
        4 * (15 * ((|Int.fdiv off 3600| : ℤ) : ℝ) - longitude)), some off⟩
    off longitude today rfl h1 h2
  rw [hday] at hfwd
  have hw : (Timestamp.mk (dayStart ts + 720 - (E_of_day (dayOfYear ts) +
      4 * (15 * ((|Int.fdiv off 3600| : ℤ) : ℝ) - longitude))) (some off)).wall +
      (4 * (15 * ((|Int.fdiv off 3600| : ℤ) : ℝ) - longitude) + E_of_day (dayOfYear ts)) =
      dayStart ts + 720 := by
    dsimp only
    ring
  rw [hw] at hfwd
  exact ⟨_, _, _, hinv, hfwd⟩

/-- Witness for the amended C2: January 1 noon at offset -08:00 and
longitude 120 (shift = E(1) ≈ -2.9 minutes, same day), recovered exactly. -/
theorem claim_C2_witness :
    ∃ noonTs w1 w2,
      calculate_solar_noon_in_local_standard_time ⟨720, some (-28800)⟩ 120 (-5) =
        .ok (noonTs, w1) ∧
      calculate_solar_time noonTs 120 (-5) =
        .ok (⟨dayStart ⟨720, some (-28800)⟩ + 720, some (-28800)⟩, w2) :=
  claim_C2 ⟨720, some (-28800)⟩ (-28800) 120 (-5) rfl (by norm_num) (by norm_num)
    (by rw [dayOfYear_noonJan1, abs_fdiv_m28800, E_day1]; push_cast; norm_num)
    (by rw [dayOfYear_noonJan1, abs_fdiv_m28800, E_day1]; push_cast; norm_num)
